import Mathlib

/-!
Shallow embedding of the alx-backend-graphql_crm repository
(files src/crm/schema.py, src/crm/filters.py, src/crm/cron.py and
src/alx_backend_graphql/schema.py) and proofs about it.

Conventions of the embedding:
* Django querysets become Lean lists; a store row is a structure value.
* Decimal amounts (prices, totals) become rationals.
* Raising GraphQLError becomes returning an Except.error with the same
  message string; callers that let the error propagate return the error.
* A mutation that writes the store returns the new store together with the
  created row; a raised error leaves the store untouched (validation runs
  before the write, and a rejected write changes nothing).
* Datetimes are abstract Nat timestamps except where the code formats them.
* The check-then-insert race of the source is made explicit: the helpers
  that both read and write the store take the store seen by the validation
  pre-check and the store seen by the insert as two arguments; the
  sequential (single-client) call passes the same store twice.
-/

namespace CRM

/-- Decidable equality on Except, used only to evaluate the embedding on
concrete inputs. -/
instance [DecidableEq ε] [DecidableEq α] : DecidableEq (Except ε α) :=
  fun a b =>
    match a, b with
    | .ok x, .ok y =>
        if h : x = y then .isTrue (by rw [h])
        else .isFalse (fun he => by cases he; exact h rfl)
    | .error x, .error y =>
        if h : x = y then .isTrue (by rw [h])
        else .isFalse (fun he => by cases he; exact h rfl)
    | .ok _, .error _ => .isFalse (fun he => Except.noConfusion he)
    | .error _, .ok _ => .isFalse (fun he => Except.noConfusion he)

/-! ## String helpers

Python string semantics are modelled on the character list of a string:
the built-in String operations of Lean are positional and do not evaluate
inside proofs, so strip/lower/split/startswith are given list-level
definitions here. -/

/-- Python truthiness of a string: empty is falsy. -/
def strIsEmpty (s : String) : Bool :=
  s.data.isEmpty

/-- Length in characters. -/
def strLen (s : String) : Nat :=
  s.data.length

/-- Python str.lower(). -/
def toLowerStr (s : String) : String :=
  ⟨s.data.map Char.toLower⟩

/-- Python str.startswith(pre). -/
def strStartsWith (s pre : String) : Bool :=
  pre.data.isPrefixOf s.data

/-- Drops the first n characters (order_by[1:]). -/
def strDrop (s : String) (n : Nat) : String :=
  ⟨s.data.drop n⟩

/-- Python str.strip(): whitespace removed from both ends. -/
def strTrim (s : String) : String :=
  ⟨((s.data.dropWhile Char.isWhitespace).reverse.dropWhile
      Char.isWhitespace).reverse⟩

/-- Splitting a character list at every occurrence of a separator
character; always returns at least one (possibly empty) piece. -/
def splitChar (c : Char) : List Char → List (List Char)
  | [] => [[]]
  | x :: xs =>
      if x == c then [] :: splitChar c xs
      else
        match splitChar c xs with
        | [] => [[x]]
        | h :: t => (x :: h) :: t

/-- Python s.split(sep) for a one-character separator, as strings. -/
def splitStr (c : Char) (s : String) : List String :=
  (splitChar c s.data).map fun l => ⟨l⟩

/-- Containment of one character list in another (needle, haystack). -/
def charsContain (hay needle : List Char) : Bool :=
  needle.isPrefixOf hay ||
    match hay with
    | [] => false
    | _ :: rest => charsContain rest needle

/-- Case-sensitive substring test. -/
def strContainsSub (hay needle : String) : Bool :=
  charsContain hay.data needle.data

/-- Case-insensitive substring test: Django's icontains lookup. -/
def containsCI (hay needle : String) : Bool :=
  charsContain (toLowerStr hay).data (toLowerStr needle).data

/-! ## Data model

The Django models themselves (crm/models.py) are not among the source
files; the record shapes below follow the fields used by
src/crm/schema.py and src/crm/filters.py, and section 3 of the spec.
Modelled from the spec: Customer carries a created_at assigned at
creation; Product price and Order total_amount are decimals (rationals
here); Order references one customer and a set of products. -/

structure Customer where
  id : Nat
  name : String
  email : String
  phone : Option String
  createdAt : Nat
  deriving Repr, DecidableEq

structure Product where
  id : Nat
  name : String
  price : Rat
  stock : Nat
  deriving Repr, DecidableEq

structure Order where
  id : Nat
  customerId : Nat
  productIds : List Nat
  orderDate : Nat
  totalAmount : Rat
  deriving Repr, DecidableEq

/-- The relational store: three tables plus id counters. -/
structure Store where
  customers : List Customer
  products : List Product
  orders : List Order
  nextCustomerId : Nat
  nextOrderId : Nat
  deriving Repr, DecidableEq

/-! ## Validation helpers (src/crm/schema.py lines 52-69) -/

/-- Digit-string test used by the phone pattern. -/
def allDigits (s : String) : Bool :=
  s.data.all Char.isDigit

/-- PHONE_REGEX from the source: matches a plus sign followed by 7 to 15
digits, or the shape NNN-NNN-NNNN. -/
def phoneRegexMatch (p : String) : Bool :=
  (strStartsWith p "+" &&
    (let ds := strDrop p 1
     allDigits ds && decide (7 ≤ strLen ds) && decide (strLen ds ≤ 15)))
  ||
  (match splitStr '-' p with
   | [a, b, c] =>
       strLen a == 3 && strLen b == 3 && strLen c == 4 &&
       allDigits a && allDigits b && allDigits c
   | _ => false)

/-- Function validate_phone of the source: an absent or empty phone passes;
otherwise the pattern must match. Returns the raised message on failure. -/
def validate_phone : Option String → Except String Unit
  | none => .ok ()
  | some p =>
      if strIsEmpty p then .ok ()
      else if phoneRegexMatch p then .ok ()
      else .error "Invalid phone format. Use +1234567890 or 123-456-7890."

/-- Modelled from the spec: Django's validate_email (an external library
function, not part of this repository) performs a standard format check.
We model it as: exactly one at-sign separating a non-empty local part from
a domain that has at least two non-empty dot-separated labels, with no
spaces anywhere. -/
def emailFormatOk (e : String) : Bool :=
  match splitStr '@' e with
  | [lpart, dpart] =>
      !strIsEmpty lpart && !strIsEmpty dpart && !e.data.contains ' ' &&
      (let labels := splitStr '.' dpart
       decide (2 ≤ labels.length) && labels.all (fun s => !strIsEmpty s))
  | _ => false

/-- Case-insensitive existence check: Customer.objects.filter
(email__iexact=email).exists(). -/
def emailExistsIexact (s : Store) (email : String) : Bool :=
  s.customers.any (fun c => toLowerStr c.email == toLowerStr email)

/-- Function validate_unique_email of the source: format check first
(failure message "Invalid email format."), then the case-insensitive
store lookup (failure message "Email already exists."). -/
def validate_unique_email (s : Store) (email : String) : Except String Unit :=
  if !emailFormatOk email then .error "Invalid email format."
  else if emailExistsIexact s email then .error "Email already exists."
  else .ok ()

/-! ## Customer creation (src/crm/schema.py lines 246-338) -/

/-- Input type CreateCustomerInput / BulkCustomerInput: name and email
required, phone optional. -/
structure CustomerInput where
  name : String
  email : String
  phone : Option String
  deriving Repr, DecidableEq

/-- Phone normalisation done by both customer mutations:
input.phone.strip() if input.phone else None. -/
def normPhone : Option String → Option String
  | none => none
  | some p => if strIsEmpty p then none else some (strTrim p)

/-- The store-level insert, Customer.objects.create, with the store's own
uniqueness constraint on email (exact match) as backstop: an exact
duplicate raises IntegrityError, modelled as Except.error (). The new row
receives the next id and the creation timestamp now. -/
def dbInsertCustomer (s : Store) (now : Nat) (name email : String)
    (phone : Option String) : Except Unit (Store × Customer) :=
  if s.customers.any (fun c => c.email == email) then .error ()
  else
    let cust : Customer :=
      { id := s.nextCustomerId, name := name, email := email,
        phone := phone, createdAt := now }
    let s' : Store :=
      { s with
        customers := s.customers ++ [cust]
        nextCustomerId := s.nextCustomerId + 1 }
    .ok (s', cust)

/-- Body shared by CreateCustomer.mutate and each iteration of
BulkCreateCustomers.mutate: trim, required-field checks, email format and
uniqueness, phone pattern, then the insert. The validation pre-checks read
sCheck; the insert writes sWrite (sequentially the two coincide). A caught
IntegrityError is re-labelled "Email already exists.". -/
def createCustomerMutate (sCheck sWrite : Store) (now : Nat)
    (input : CustomerInput) : Except String (Store × Customer) :=
  let name := strTrim input.name
  let email := strTrim input.email
  let phone := normPhone input.phone
  if strIsEmpty name then .error "Name is required."
  else if strIsEmpty email then .error "Email is required."
  else
    match validate_unique_email sCheck email with
    | .error m => .error m
    | .ok () =>
      match validate_phone phone with
      | .error m => .error m
      | .ok () =>
        match dbInsertCustomer sWrite now name email phone with
        | .error () => .error "Email already exists."
        | .ok r => .ok r

/-- CreateCustomer.mutate as a single sequential client sees it. -/
def createCustomer (s : Store) (now : Nat) (input : CustomerInput) :
    Except String (Store × Customer) :=
  createCustomerMutate s s now input

/-- Store left behind by a createCustomer call: an error leaves it
unchanged (the GraphQLError is raised before or by the rejected write). -/
def storeAfterCreate (s : Store) (now : Nat) (input : CustomerInput) : Store :=
  match createCustomer s now input with
  | .ok (s', _) => s'
  | .error _ => s

/-! ## Bulk creation (src/crm/schema.py lines 281-338) -/

/-- One iteration of the BulkCreateCustomers loop at index idx: on success
the savepoint commits (new store, created row); on any failure the
savepoint rolls back (store as at the write, no row) and the error message
is prefixed with the row index. -/
def bulkRow (idx : Nat) (sCheck sWrite : Store) (now : Nat)
    (c : CustomerInput) : Store × Option Customer × Option String :=
  match createCustomerMutate sCheck sWrite now c with
  | .ok (s', cust) => (s', some cust, none)
  | .error m => (sWrite, none, some ("Row " ++ toString idx ++ ": " ++ m))

/-- The loop of BulkCreateCustomers.mutate: rows processed in order, the
store threaded through (so a committed row is visible to later rows),
successes and errors appended to their own lists. -/
def bulkGo (s : Store) (now : Nat) (idx : Nat) :
    List CustomerInput → Store × List Customer × List String
  | [] => (s, [], [])
  | c :: rest =>
      let (s', oc, oe) := bulkRow idx s s now c
      let (sEnd, cs, es) := bulkGo s' now (idx + 1) rest
      (sEnd, oc.toList ++ cs, oe.toList ++ es)

/-- Result shape of BulkCreateCustomers: the committed store, the created
customers and the error strings. -/
structure BulkResult where
  store : Store
  customers : List Customer
  errors : List String
  deriving Repr, DecidableEq

/-- BulkCreateCustomers.mutate: empty input short-circuits with one global
error; otherwise the loop runs over all rows and the outer transaction
always commits. -/
def bulkCreateCustomers (s : Store) (now : Nat) (input : List CustomerInput) :
    BulkResult :=
  if input.isEmpty then
    { store := s, customers := [], errors := ["Input list cannot be empty."] }
  else
    let (s', cs, es) := bulkGo s now 0 input
    { store := s', customers := cs, errors := es }

/-- Per-row outcome trace of a bulk call: for each row, its 0-based index
paired with either the customer it created or the message it failed with,
with the store threaded exactly as the loop threads it. -/
def bulkOutcomes (s : Store) (now : Nat) (idx : Nat) :
    List CustomerInput → List (Nat × Except String Customer)
  | [] => []
  | c :: rest =>
      match createCustomerMutate s s now c with
      | .ok (s', cust) => (idx, .ok cust) :: bulkOutcomes s' now (idx + 1) rest
      | .error m => (idx, .error m) :: bulkOutcomes s now (idx + 1) rest

/-! ## Order creation (src/crm/schema.py lines 372-416) -/

/-- Input type CreateOrderInput: a customer id, a list of product ids and
an optional order date. There is no total field. -/
structure OrderInput where
  customerId : Nat
  productIds : List Nat
  orderDate : Option Nat
  deriving Repr, DecidableEq

/-- CreateOrder.mutate: requires a non-empty product list, an existing
customer and only known product ids; the total is recomputed from the
current store prices (sum over the distinct referenced products, exactly
what Product.objects.filter(pk__in=product_ids) returns); the order is
inserted with date defaulting to now. -/
def createOrderMutate (s : Store) (now : Nat) (input : OrderInput) :
    Except String (Store × Order) :=
  let productIds := input.productIds
  let orderDate := input.orderDate.getD now
  if productIds.isEmpty then .error "At least one product must be selected."
  else
    match s.customers.find? (fun c => c.id == input.customerId) with
    | none => .error "Invalid customer ID."
    | some _ =>
      let products := s.products.filter (fun p => productIds.contains p.id)
      let foundIds := products.map Product.id
      let missing := productIds.filter (fun pid => !foundIds.contains pid)
      if !missing.isEmpty then
        .error ("Invalid product ID(s): " ++
          String.intercalate ", " (missing.map toString))
      else
        let total := (products.map Product.price).sum
        let order : Order :=
          { id := s.nextOrderId, customerId := input.customerId,
            productIds := foundIds, orderDate := orderDate,
            totalAmount := total }
        let s' : Store :=
          { s with
            orders := s.orders ++ [order]
            nextOrderId := s.nextOrderId + 1 }
        .ok (s', order)

/-! ## Filter inputs (src/crm/schema.py lines 72-96) -/

structure CustomerFilterInput where
  nameIcontains : Option String := none
  emailIcontains : Option String := none
  createdAtGte : Option Nat := none
  createdAtLte : Option Nat := none
  phonePattern : Option String := none
  deriving Repr, DecidableEq

structure ProductFilterInput where
  nameIcontains : Option String := none
  priceGte : Option Rat := none
  priceLte : Option Rat := none
  stockGte : Option Int := none
  stockLte : Option Int := none
  lowStock : Option Bool := none
  deriving Repr, DecidableEq

structure OrderFilterInput where
  totalAmountGte : Option Rat := none
  totalAmountLte : Option Rat := none
  orderDateGte : Option Nat := none
  orderDateLte : Option Nat := none
  customerName : Option String := none
  productName : Option String := none
  productId : Option Nat := none
  deriving Repr, DecidableEq

/-! ## Filter translation (src/crm/filters.py and the resolver bodies)

The resolvers copy each filter field into a data dict; Python truthiness
decides presence for string fields (None and "" both skipped) while the
numeric and boolean fields test "is not None". The FilterSet then applies
one queryset filter per present key, in declared order. We model the data
dict per entity as a structure of options and the FilterSet as the chain
of list filters. The typed inputs always pass form validation, so the
"Invalid filter" branch of _filter_queryset is unreachable here. -/

/-- Presence of a string field under Python truthiness. -/
def truthyStr : Option String → Option String
  | none => none
  | some s => if strIsEmpty s then none else some s

/-- Applies one optional clause to a queryset. -/
def optFilter (o : Option β) (pred : β → α → Bool) (qs : List α) : List α :=
  match o with
  | none => qs
  | some v => qs.filter (pred v)

/-- Data dict built by resolve_all_customers, then CustomerFilter applied
clause by clause (name icontains, email icontains, created_at bounds,
phone__startswith). -/
def customerFilterApply (f : CustomerFilterInput) (qs : List Customer) :
    List Customer :=
  let qs := optFilter (truthyStr f.nameIcontains)
    (fun v c => containsCI c.name v) qs
  let qs := optFilter (truthyStr f.emailIcontains)
    (fun v c => containsCI c.email v) qs
  let qs := optFilter f.createdAtGte
    (fun v c => decide (v ≤ c.createdAt)) qs
  let qs := optFilter f.createdAtLte
    (fun v c => decide (c.createdAt ≤ v)) qs
  optFilter (truthyStr f.phonePattern)
    (fun v c => strStartsWith (c.phone.getD "") v) qs

/-- Data dict built by resolve_all_products, then ProductFilter applied
clause by clause; low_stock present and true filters stock < 10, present
and false leaves the queryset unchanged (filter_low_stock). -/
def productFilterApply (f : ProductFilterInput) (qs : List Product) :
    List Product :=
  let qs := optFilter (truthyStr f.nameIcontains)
    (fun v p => containsCI p.name v) qs
  let qs := optFilter f.priceGte (fun v p => decide (v ≤ p.price)) qs
  let qs := optFilter f.priceLte (fun v p => decide (p.price ≤ v)) qs
  let qs := optFilter f.stockGte (fun v p => decide (v ≤ (p.stock : Int))) qs
  let qs := optFilter f.stockLte (fun v p => decide ((p.stock : Int) ≤ v)) qs
  match f.lowStock with
  | some true => qs.filter (fun p => decide (p.stock < 10))
  | _ => qs

/-- Data dict built by resolve_all_orders, then OrderFilter applied clause
by clause; customer_name and product_name join through the relations
(an order matches when its customer, or one of its products, matches);
product_id uses Python truthiness because the resolver tests the bare
value. The trailing .distinct() of the resolver is the identity here since
list filtering never duplicates a row. -/
def orderFilterApply (s : Store) (f : OrderFilterInput) (qs : List Order) :
    List Order :=
  let qs := optFilter f.totalAmountGte (fun v o => decide (v ≤ o.totalAmount)) qs
  let qs := optFilter f.totalAmountLte (fun v o => decide (o.totalAmount ≤ v)) qs
  let qs := optFilter f.orderDateGte (fun v o => decide (v ≤ o.orderDate)) qs
  let qs := optFilter f.orderDateLte (fun v o => decide (o.orderDate ≤ v)) qs
  let qs := optFilter (truthyStr f.customerName)
    (fun v o => match s.customers.find? (fun c => c.id == o.customerId) with
      | some c => containsCI c.name v
      | none => false) qs
  let qs := optFilter (truthyStr f.productName)
    (fun v o => o.productIds.any (fun pid =>
      match s.products.find? (fun p => p.id == pid) with
      | some p => containsCI p.name v
      | none => false)) qs
  optFilter f.productId (fun v o => o.productIds.contains v) qs

/-! ## Sorting (src/crm/schema.py lines 102-108 and Django order_by) -/

/-- Per-field ascending comparison for customers. -/
def customerKeyLe (field : String) (a b : Customer) : Bool :=
  if field == "name" then decide (a.name ≤ b.name)
  else if field == "email" then decide (a.email ≤ b.email)
  else decide (a.createdAt ≤ b.createdAt)

/-- Per-field ascending comparison for products. -/
def productKeyLe (field : String) (a b : Product) : Bool :=
  if field == "name" then decide (a.name ≤ b.name)
  else if field == "price" then decide (a.price ≤ b.price)
  else decide (a.stock ≤ b.stock)

/-- Per-field ascending comparison for orders. -/
def orderKeyLe (field : String) (a b : Order) : Bool :=
  if field == "order_date" then decide (a.orderDate ≤ b.orderDate)
  else decide (a.totalAmount ≤ b.totalAmount)

/-- Django's qs.order_by(directive): a leading "-" sorts descending by the
stripped field, otherwise ascending; the sort is stable. -/
def orderByDirective (le : String → α → α → Bool) (ob : String)
    (qs : List α) : List α :=
  if strStartsWith ob "-" then
    qs.mergeSort (fun a b => le (strDrop ob 1) b a)
  else qs.mergeSort (fun a b => le ob a b)

/-- Strips the optional leading descending marker from a sort directive:
order_by[1:] if order_by.startswith("-") else order_by. -/
def stripMarker (ob : String) : String :=
  if strStartsWith ob "-" then strDrop ob 1 else ob

/-- Helper _apply_order_by of the source: absent or empty directive leaves
the queryset alone; a stripped field outside the allow-list raises
GraphQLError; otherwise the queryset is ordered by the directive. -/
def apply_order_by (le : String → α → α → Bool) (qs : List α)
    (orderBy : Option String) (allowed : List String) :
    Except String (List α) :=
  match orderBy with
  | none => .ok qs
  | some ob =>
      if strIsEmpty ob then .ok qs
      else
        if !(decide (stripMarker ob ∈ allowed)) then
          .error ("Invalid orderBy field: " ++ stripMarker ob)
        else .ok (orderByDirective le ob qs)

/-! ## Query resolvers (src/crm/schema.py lines 122-213) -/

/-- Resolver resolve_hello of both Query classes. -/
def resolve_hello : String := "Hello, GraphQL!"

/-- Resolver resolve_all_customers: filter (when supplied) then order_by
with allow-list name/email/created_at. -/
def resolve_all_customers (s : Store) (filt : Option CustomerFilterInput)
    (orderBy : Option String) : Except String (List Customer) :=
  let qs := s.customers
  let qs := match filt with
    | none => qs
    | some f => customerFilterApply f qs
  apply_order_by customerKeyLe qs orderBy ["name", "email", "created_at"]

/-- Resolver resolve_all_products: filter (when supplied) then order_by
with allow-list name/price/stock. -/
def resolve_all_products (s : Store) (filt : Option ProductFilterInput)
    (orderBy : Option String) : Except String (List Product) :=
  let qs := s.products
  let qs := match filt with
    | none => qs
    | some f => productFilterApply f qs
  apply_order_by productKeyLe qs orderBy ["name", "price", "stock"]

/-- Resolver resolve_all_orders: filter (when supplied, with .distinct())
then order_by with allow-list order_date/total_amount. -/
def resolve_all_orders (s : Store) (filt : Option OrderFilterInput)
    (orderBy : Option String) : Except String (List Order) :=
  let qs := s.orders
  let qs := match filt with
    | none => qs
    | some f => orderFilterApply s f qs
  apply_order_by orderKeyLe qs orderBy ["order_date", "total_amount"]

/-! ## Module surface (src/crm/schema.py top level and
src/alx_backend_graphql/schema.py)

A Python module body is a sequence of top-level bindings executed in
order; a later binding of the same name replaces the earlier one. We
record, in source order, the class bindings of crm/schema.py together
with the entry-point field names each class exposes, and resolve a lookup
the way Python does: last binding wins. -/

def crmSchemaBindings : List (String × List String) :=
  [("CustomerType", ["id", "name", "email", "phone"]),
   ("ProductType", ["id", "name", "price", "stock"]),
   ("OrderType", ["id", "customer", "products", "order_date",
                  "total_amount", "product"]),
   ("CustomerFilterInput", []),
   ("ProductFilterInput", []),
   ("OrderFilterInput", []),
   ("Query", ["hello", "allCustomers", "allProducts", "allOrders"]),
   ("CreateCustomerInput", []),
   ("BulkCustomerInput", []),
   ("CreateProductInput", []),
   ("CreateOrderInput", []),
   ("CreateCustomer", []),
   ("BulkCreateCustomers", []),
   ("CreateProduct", []),
   ("CreateOrder", []),
   ("Query", ["hello"]),
   ("Mutation", ["createCustomer", "bulkCreateCustomers",
                 "createProduct", "createOrder"])]

/-- Name lookup in a module: the last binding of the name, if any. -/
def moduleLookup (binds : List (String × List String)) (n : String) :
    Option (List String) :=
  (binds.reverse.find? (fun b => b.1 == n)).map Prod.snd

/-- The names src/alx_backend_graphql/schema.py imports from crm.schema to
build the root schema. -/
def alxSchemaImports : List String := ["CRMQuery", "CRMMutation"]

/-! ## Heartbeat job (src/crm/cron.py lines 12-28) -/

/-- Wall-clock fields the heartbeat formats. -/
structure ClockTime where
  day : Nat
  month : Nat
  year : Nat
  hour : Nat
  minute : Nat
  second : Nat
  deriving Repr, DecidableEq

/-- Two-digit zero padding of strftime. -/
def pad2 (n : Nat) : String :=
  if n < 10 then "0" ++ toString n else toString n

/-- Four-digit zero padding of strftime's %Y. -/
def pad4 (n : Nat) : String :=
  if n < 10 then "000" ++ toString n
  else if n < 100 then "00" ++ toString n
  else if n < 1000 then "0" ++ toString n
  else toString n

/-- strftime("%d/%m/%Y-%H:%M:%S") as the heartbeat formats it. -/
def heartbeatTimestamp (t : ClockTime) : String :=
  pad2 t.day ++ "/" ++ pad2 t.month ++ "/" ++ pad4 t.year ++ "-" ++
  pad2 t.hour ++ ":" ++ pad2 t.minute ++ ":" ++ pad2 t.second

/-- Function log_crm_heartbeat: the optional hello probe is wrapped in a
bare try/except, so its outcome (helloOk) cannot change what follows; one
line "timestamp CRM is alive" is appended to the log unconditionally. -/
def log_crm_heartbeat (helloOk : Bool) (t : ClockTime)
    (log : List String) : List String :=
  log ++ [heartbeatTimestamp t ++ " CRM is alive"]

/-- Projection of a per-row outcome to its created customer, if any. -/
def okProj (x : Nat × Except String Customer) : Option Customer :=
  match x.2 with
  | .ok c => some c
  | .error _ => none

/-- Projection of a per-row outcome to its error string, if any, rebuilt
with the row-index tag exactly as the loop builds it. -/
def errProj (x : Nat × Except String Customer) : Option String :=
  match x.2 with
  | .ok _ => none
  | .error m => some ("Row " ++ toString x.1 ++ ": " ++ m)

/-! ## Concrete data for the examples -/

def emptyStore : Store := ⟨[], [], [], 0, 0⟩

def rowAlice : CustomerInput := ⟨"Alice", "alice@example.com", none⟩

def rowBadEmail : CustomerInput := ⟨"Bob", "not-an-email", none⟩

def rowCarol : CustomerInput := ⟨"Carol", "carol@example.com", none⟩

def custAlice : Customer := ⟨0, "Alice", "alice@example.com", none, 5⟩

def storeAlice : Store := ⟨[custAlice], [], [], 1, 0⟩

def prodWidget : Product := ⟨1, "widget", 10, 12⟩

def prodGadget : Product := ⟨2, "gadget", 3, 4⟩

def custSeven : Customer := ⟨7, "Cust", "cust@example.com", none, 0⟩

def storeOrders : Store := ⟨[custSeven], [prodWidget, prodGadget], [], 8, 9⟩

def orderInputBoth : OrderInput := ⟨7, [1, 2], none⟩

def orderBoth : Order := ⟨9, 7, [1, 2], 42, 13⟩

def orderCheap : Order := ⟨1, 7, [1], 0, 5⟩

def storeOneOrder : Store := ⟨[], [], [orderCheap], 0, 0⟩

def storeTwoProducts : Store := ⟨[], [prodWidget, prodGadget], [], 0, 0⟩

def heartbeatTime : ClockTime := ⟨12, 10, 2026, 0, 0, 0⟩

/-! # Claim theorems -/

/-- C7: bulkCreateCustomers applied to an empty input list returns an
empty success list and exactly one global error ("Input list cannot be
empty.", a single boundary-case error, not a per-item one), regardless of
the store and clock; the store is untouched. -/
theorem bulk_empty_returns_single_global_error (s : Store) (now : Nat) :
    (bulkCreateCustomers s now []).customers = [] ∧
    (bulkCreateCustomers s now []).errors = ["Input list cannot be empty."] ∧
    (bulkCreateCustomers s now []).errors.length = 1 ∧
    strContainsSub "Input list cannot be empty." "list cannot be empty" = true ∧
    (bulkCreateCustomers s now []).store = s :=
  ⟨rfl, rfl, rfl, by decide, rfl⟩

/-- C2: the later top-level class binding of Query in crm/schema.py
shadows the earlier one, so the module's Query exposes only hello and none
of the collection entry points; the names the root schema module imports
from crm.schema (CRMQuery, CRMMutation) are not bound there at all, while
the shadowed earlier Query revision did expose all four entry points. -/
theorem query_root_missing_collections :
    moduleLookup crmSchemaBindings "Query" = some ["hello"] ∧
    ("Query", ["hello", "allCustomers", "allProducts", "allOrders"]) ∈
      crmSchemaBindings ∧
    moduleLookup crmSchemaBindings "CRMQuery" = none ∧
    moduleLookup crmSchemaBindings "CRMMutation" = none ∧
    (alxSchemaImports.all
      (fun n => (moduleLookup crmSchemaBindings n).isSome)) = false := by
  decide

/-- C9 counterexample: the heartbeat invoked with a failing liveness probe
appends the line "12/10/2026-00:00:00 CRM is alive", which carries neither
a DOWN nor an UP marker, and is exactly the line a successful probe
appends; so the logged line does not contain an UP/DOWN status. -/
theorem heartbeat_line_has_no_status_marker :
    log_crm_heartbeat false heartbeatTime [] =
      ["12/10/2026-00:00:00 CRM is alive"] ∧
    strContainsSub "12/10/2026-00:00:00 CRM is alive" "DOWN" = false ∧
    strContainsSub "12/10/2026-00:00:00 CRM is alive" "UP" = false ∧
    log_crm_heartbeat false heartbeatTime [] =
      log_crm_heartbeat true heartbeatTime [] :=
  ⟨by decide, by decide, by decide, rfl⟩

/-- C9 amended: the heartbeat job never raises; on every invocation,
whether or not the liveness query succeeds, it appends exactly one line,
the DD/MM/YYYY-HH:MM:SS timestamp followed by the fixed text
" CRM is alive", identical for success and failure. -/
theorem heartbeat_appends_one_fixed_line (ok : Bool) (t : ClockTime)
    (log : List String) :
    log_crm_heartbeat ok t log =
      log ++ [heartbeatTimestamp t ++ " CRM is alive"] ∧
    (log_crm_heartbeat ok t log).length = log.length + 1 ∧
    log_crm_heartbeat ok t log = log_crm_heartbeat true t log :=
  ⟨rfl, by simp [log_crm_heartbeat], rfl⟩

/-- C3: a successful createOrder stores as total_amount exactly the sum of
the current store prices of the products its input references; the input
type has no total field, so no client-supplied amount can enter. -/
theorem createOrder_total_from_store_prices (s : Store) (now : Nat)
    (input : OrderInput) (s' : Store) (o : Order)
    (h : createOrderMutate s now input = .ok (s', o)) :
    o.totalAmount =
      ((s.products.filter (fun p => input.productIds.contains p.id)).map
        Product.price).sum := by
  simp only [createOrderMutate] at h
  split at h
  · exact absurd h (by simp)
  · split at h
    · exact absurd h (by simp)
    · split at h
      · exact absurd h (by simp)
      · simp only [Except.ok.injEq, Prod.mk.injEq] at h
        obtain ⟨-, h2⟩ := h
        subst h2
        rfl

/-- C3 witness: on a store holding products priced 10 and 3, the order
created for both products carries total 13, the sum of the store prices. -/
theorem createOrder_total_from_store_prices_witness :
    orderBoth.totalAmount =
      ((storeOrders.products.filter
        (fun p => orderInputBoth.productIds.contains p.id)).map
        Product.price).sum :=
  createOrder_total_from_store_prices storeOrders 42 orderInputBoth
    { storeOrders with orders := [orderBoth], nextOrderId := 10 } orderBoth
    (by norm_num [createOrderMutate, storeOrders, orderInputBoth, prodWidget,
      prodGadget, custSeven, orderBoth, List.sum])

/-- C6: with low_stock true in the product filter, a product passes
exactly when it passes every other present clause and in addition has
stock < 10 (the fixed comparison, combined by AND); in particular
stock_lte = 5 together with low_stock = true keeps exactly the products
with stock ≤ 5 and stock < 10 — the intersection, also at the resolver. -/
theorem lowStock_is_and_of_stock_lt_ten (s : Store) (f : ProductFilterInput)
    (p : Product) (hf : f.lowStock = some true) :
    (p ∈ productFilterApply f s.products ↔
      p ∈ s.products ∧
      (∀ v, truthyStr f.nameIcontains = some v → containsCI p.name v = true) ∧
      (∀ v, f.priceGte = some v → v ≤ p.price) ∧
      (∀ v, f.priceLte = some v → p.price ≤ v) ∧
      (∀ v, f.stockGte = some v → v ≤ (p.stock : Int)) ∧
      (∀ v, f.stockLte = some v → (p.stock : Int) ≤ v) ∧
      p.stock < 10) ∧
    (∀ q : Product,
      q ∈ productFilterApply
          { stockLte := some 5, lowStock := some true } s.products ↔
        q ∈ s.products ∧ (q.stock : Int) ≤ 5 ∧ q.stock < 10) ∧
    resolve_all_products s
        (some { stockLte := some 5, lowStock := some true }) none =
      .ok ((s.products.filter (fun q => decide ((q.stock : Int) ≤ 5))).filter
        (fun q => decide (q.stock < 10))) := by
  refine ⟨?_, ?_, ?_⟩
  · cases h1 : truthyStr f.nameIcontains <;> cases h2 : f.priceGte <;>
      cases h3 : f.priceLte <;> cases h4 : f.stockGte <;>
      cases h5 : f.stockLte <;>
      simp_all [productFilterApply, optFilter, List.mem_filter,
        and_assoc] <;>
      tauto
  · intro q
    simp [productFilterApply, optFilter, truthyStr, List.mem_filter,
      and_assoc]
    tauto
  · simp [resolve_all_products, productFilterApply, optFilter, truthyStr,
      apply_order_by]

/-- C6 witness: in the store with products of stock 12 and 4, the gadget
of stock 4 passes the combined stock_lte = 5 and low_stock = true filter. -/
theorem lowStock_is_and_of_stock_lt_ten_witness :
    prodGadget ∈ productFilterApply
      { stockLte := some 5, lowStock := some true } storeTwoProducts.products :=
  (((lowStock_is_and_of_stock_lt_ten storeTwoProducts
      { stockLte := some 5, lowStock := some true } prodGadget rfl).2.1)
    prodGadget).mpr ⟨by decide, by decide, by decide⟩

/-- C10: a string filter field supplied as the empty string is skipped by
the resolvers (Python truthiness), so it constrains nothing — the result
equals the one with the field omitted — while a numeric bound is skipped
only when absent, so a zero bound is applied as a real constraint. -/
theorem falsy_string_filters_skipped (s : Store) (fC : CustomerFilterInput)
    (fO : OrderFilterInput) (ob : Option String) :
    (fC.nameIcontains = some "" →
      resolve_all_customers s (some fC) ob =
        resolve_all_customers s (some { fC with nameIcontains := none }) ob) ∧
    (fC.emailIcontains = some "" →
      resolve_all_customers s (some fC) ob =
        resolve_all_customers s (some { fC with emailIcontains := none }) ob) ∧
    (fO.customerName = some "" →
      resolve_all_orders s (some fO) ob =
        resolve_all_orders s (some { fO with customerName := none }) ob) ∧
    resolve_all_orders s (some { totalAmountLte := some 0 }) none =
      .ok (s.orders.filter (fun o => decide (o.totalAmount ≤ 0))) ∧
    resolve_all_orders storeOneOrder (some { totalAmountLte := some 0 })
        none = .ok [] ∧
    resolve_all_orders storeOneOrder none none = .ok [orderCheap] := by
  have he : strIsEmpty "" = true := rfl
  refine ⟨?_, ?_, ?_, ?_, ?_, ?_⟩
  · intro h
    simp [resolve_all_customers, customerFilterApply, truthyStr, h, he]
  · intro h
    simp [resolve_all_customers, customerFilterApply, truthyStr, h, he]
  · intro h
    simp [resolve_all_orders, orderFilterApply, truthyStr, h, he]
  · simp [resolve_all_orders, orderFilterApply, optFilter, truthyStr,
      apply_order_by]
  · norm_num [resolve_all_orders, orderFilterApply, optFilter, truthyStr,
      apply_order_by, storeOneOrder, orderCheap]
  · simp [resolve_all_orders, apply_order_by, storeOneOrder]

/-- C10 witness: concrete instances of the skipped empty-string clauses. -/
theorem falsy_string_filters_skipped_witness :
    resolve_all_customers emptyStore (some { nameIcontains := some "" })
        none =
      resolve_all_customers emptyStore
        (some { ({ nameIcontains := some "" } : CustomerFilterInput) with
          nameIcontains := none }) none :=
  (falsy_string_filters_skipped emptyStore { nameIcontains := some "" }
    {} none).1 rfl

/-- Helper: the loop's two result lists are the two projections of the
per-row outcome trace, whose index column counts up from the start
index. -/
theorem bulkGo_eq_outcomes (now : Nat) :
    ∀ (rows : List CustomerInput) (s : Store) (idx : Nat),
      (bulkGo s now idx rows).2.1 =
        (bulkOutcomes s now idx rows).filterMap okProj ∧
      (bulkGo s now idx rows).2.2 =
        (bulkOutcomes s now idx rows).filterMap errProj ∧
      (bulkOutcomes s now idx rows).map Prod.fst =
        List.range' idx rows.length := by
  intro rows
  induction rows with
  | nil => intro s idx; simp [bulkGo, bulkOutcomes]
  | cons c rest ih =>
      intro s idx
      cases h : createCustomerMutate s s now c with
      | ok r =>
          obtain ⟨s', cust⟩ := r
          simp [bulkGo, bulkOutcomes, bulkRow, h, okProj, errProj, ih,
            List.range'_succ]
      | error m =>
          simp [bulkGo, bulkOutcomes, bulkRow, h, okProj, errProj, ih,
            List.range'_succ]

/-- Helper: every outcome lands in exactly one of the two projections. -/
theorem okProj_errProj_length :
    ∀ outs : List (Nat × Except String Customer),
      (outs.filterMap okProj).length + (outs.filterMap errProj).length =
        outs.length := by
  intro outs
  induction outs with
  | nil => simp
  | cons x rest ih =>
      obtain ⟨i, r⟩ := x
      cases r <;> simp [okProj, errProj, List.filterMap_cons] <;> omega

/-- C1: on a non-empty batch the bulk mutation processes every item, in
input order: the success list is exactly the ordered successful subset of
the per-row outcome trace, the error list is exactly the ordered failed
subset with each message tagged by its original 0-based index, the trace
covers the indices 0..n-1 once each (no failure aborts the rest), and
every item contributes exactly one entry to exactly one of the lists. -/
theorem bulk_processes_each_item_independently (s : Store) (now : Nat)
    (input : List CustomerInput) (h : input ≠ []) :
    (bulkCreateCustomers s now input).customers =
      (bulkOutcomes s now 0 input).filterMap okProj ∧
    (bulkCreateCustomers s now input).errors =
      (bulkOutcomes s now 0 input).filterMap errProj ∧
    (bulkOutcomes s now 0 input).map Prod.fst = List.range input.length ∧
    (bulkCreateCustomers s now input).customers.length +
      (bulkCreateCustomers s now input).errors.length = input.length := by
  obtain ⟨hc, he, hm⟩ := bulkGo_eq_outcomes now input s 0
  have hlen : (bulkOutcomes s now 0 input).length = input.length := by
    have := congrArg List.length hm
    simpa using this
  cases input with
  | nil => exact absurd rfl h
  | cons c rest =>
      rcases hg : bulkGo s now 0 (c :: rest) with ⟨sE, cs, es⟩
      rw [hg] at hc he
      have hbulk : bulkCreateCustomers s now (c :: rest) =
          { store := sE, customers := cs, errors := es } := by
        simp [bulkCreateCustomers, hg]
      have hc' : cs = (bulkOutcomes s now 0 (c :: rest)).filterMap okProj := hc
      have he' : es = (bulkOutcomes s now 0 (c :: rest)).filterMap errProj := he
      refine ⟨by rw [hbulk]; exact hc', by rw [hbulk]; exact he',
        by rw [hm, List.range_eq_range'], ?_⟩
      rw [hbulk]
      show cs.length + es.length = (c :: rest).length
      rw [hc', he', okProj_errProj_length, hlen]

/-- C1 witness: the spec's own example — a batch of three where the second
item has a malformed email: items one and three are created in order,
the single error carries index 1, and the counts add up. -/
theorem bulk_processes_each_item_independently_witness :
    ((rowAlice, rowBadEmail, rowCarol) =
        (rowAlice, rowBadEmail, rowCarol) ∧
      (bulkCreateCustomers emptyStore 5
        [rowAlice, rowBadEmail, rowCarol]).customers.map Customer.name =
        ["Alice", "Carol"] ∧
      (bulkCreateCustomers emptyStore 5
        [rowAlice, rowBadEmail, rowCarol]).errors =
        ["Row 1: Invalid email format."]) ∧
    (bulkCreateCustomers emptyStore 5
        [rowAlice, rowBadEmail, rowCarol]).customers =
      (bulkOutcomes emptyStore 5 0
        [rowAlice, rowBadEmail, rowCarol]).filterMap okProj ∧
    (bulkCreateCustomers emptyStore 5
        [rowAlice, rowBadEmail, rowCarol]).errors =
      (bulkOutcomes emptyStore 5 0
        [rowAlice, rowBadEmail, rowCarol]).filterMap errProj ∧
    (bulkOutcomes emptyStore 5 0
        [rowAlice, rowBadEmail, rowCarol]).map Prod.fst =
      List.range 3 ∧
    (bulkCreateCustomers emptyStore 5
        [rowAlice, rowBadEmail, rowCarol]).customers.length +
      (bulkCreateCustomers emptyStore 5
        [rowAlice, rowBadEmail, rowCarol]).errors.length = 3 :=
  ⟨⟨rfl, by decide, by decide⟩,
    bulk_processes_each_item_independently emptyStore 5
      [rowAlice, rowBadEmail, rowCarol] (by decide)⟩

/-- Helper: a format-valid email is non-empty. -/
theorem emailFormatOk_nonempty (e : String) (h : emailFormatOk e = true) :
    strIsEmpty e = false := by
  cases e with
  | mk data =>
      cases data with
      | nil => simp [emailFormatOk, splitStr, splitChar, strIsEmpty] at h
      | cons a l => rfl

/-- Helper: a successful row insert stores exactly the trimmed input email
and the created row belongs to the returned store. -/
theorem createCustomerMutate_ok_mem (sCheck sWrite : Store) (now : Nat)
    (c : CustomerInput) (s' : Store) (cust : Customer)
    (h : createCustomerMutate sCheck sWrite now c = .ok (s', cust)) :
    cust.email = strTrim c.email ∧ cust ∈ s'.customers := by
  simp only [createCustomerMutate, dbInsertCustomer] at h
  split at h
  · simp at h
  · split at h
    · simp at h
    · split at h
      · simp at h
      · split at h
        · simp at h
        · split at h
          · simp at h
          · rename_i r heq
            rw [Except.ok.injEq] at h
            subst h
            split at heq
            · simp at heq
            · simp only [Except.ok.injEq, Prod.mk.injEq] at heq
              obtain ⟨hs, hcust⟩ := heq
              subst hs hcust
              exact ⟨rfl, by simp⟩

/-- Helper: a case-insensitive duplicate seen by the validation pre-check
fails with the DuplicateKey message. -/
theorem dup_email_error (sCheck sWrite : Store) (now : Nat)
    (c : CustomerInput)
    (h1 : strIsEmpty (strTrim c.name) = false)
    (h2 : emailFormatOk (strTrim c.email) = true)
    (h3 : emailExistsIexact sCheck (strTrim c.email) = true) :
    createCustomerMutate sCheck sWrite now c =
      .error "Email already exists." := by
  simp [createCustomerMutate, validate_unique_email, h1, h2, h3,
    emailFormatOk_nonempty _ h2]

/-- Helper: an exact duplicate first seen by the store write (the
IntegrityError backstop) is relabelled to the same DuplicateKey message. -/
theorem integrityDup_error (sCheck sWrite : Store) (now : Nat)
    (c : CustomerInput)
    (h1 : strIsEmpty (strTrim c.name) = false)
    (h2 : emailFormatOk (strTrim c.email) = true)
    (h3 : emailExistsIexact sCheck (strTrim c.email) = false)
    (hph : validate_phone (normPhone c.phone) = .ok ())
    (hdup : (sWrite.customers.any
      (fun x => x.email == strTrim c.email)) = true) :
    createCustomerMutate sCheck sWrite now c =
      .error "Email already exists." := by
  simp [createCustomerMutate, validate_unique_email, dbInsertCustomer, h1,
    h2, h3, hph, hdup, emailFormatOk_nonempty _ h2]

/-- C4: duplicate-email handling in the bulk mutation. First, an item
whose trimmed email matches a committed record case-insensitively fails
with "Email already exists.". Second, in a two-row batch whose second row
repeats the first row's email in any letter case, the first row is
created and committed, and the second fails with the same DuplicateKey
message tagged with its index. Third, a uniqueness violation raised only
by the store write (a write-time store differing from the one the
pre-check read) is converted by the row handler into the same tagged
DuplicateKey error and rolls the row back, leaking no raw store error. -/
theorem bulk_duplicate_email_both_sources :
    (∀ (sCheck sWrite : Store) (now : Nat) (c : CustomerInput),
      strIsEmpty (strTrim c.name) = false →
      emailFormatOk (strTrim c.email) = true →
      emailExistsIexact sCheck (strTrim c.email) = true →
      createCustomerMutate sCheck sWrite now c =
        .error "Email already exists.") ∧
    (∀ (s : Store) (now : Nat) (r1 r2 : CustomerInput) (s1 : Store)
        (c1 : Customer),
      createCustomerMutate s s now r1 = .ok (s1, c1) →
      strIsEmpty (strTrim r2.name) = false →
      emailFormatOk (strTrim r2.email) = true →
      toLowerStr (strTrim r2.email) = toLowerStr (strTrim r1.email) →
      bulkCreateCustomers s now [r1, r2] =
        { store := s1, customers := [c1],
          errors := ["Row 1: Email already exists."] }) ∧
    (∀ (idx : Nat) (sCheck sWrite : Store) (now : Nat) (c : CustomerInput),
      strIsEmpty (strTrim c.name) = false →
      emailFormatOk (strTrim c.email) = true →
      emailExistsIexact sCheck (strTrim c.email) = false →
      validate_phone (normPhone c.phone) = .ok () →
      (sWrite.customers.any (fun x => x.email == strTrim c.email)) = true →
      bulkRow idx sCheck sWrite now c =
        (sWrite, none,
          some ("Row " ++ toString idx ++ ": Email already exists."))) := by
  refine ⟨fun sCheck sWrite now c h1 h2 h3 =>
    dup_email_error sCheck sWrite now c h1 h2 h3, ?_, ?_⟩
  · intro s now r1 r2 s1 c1 hok h1 h2 h4
    obtain ⟨hemail, hmem⟩ := createCustomerMutate_ok_mem s s now r1 s1 c1 hok
    have hex : emailExistsIexact s1 (strTrim r2.email) = true := by
      simp only [emailExistsIexact, List.any_eq_true, beq_iff_eq]
      exact ⟨c1, hmem, by rw [hemail, h4]⟩
    have herr := dup_email_error s1 s1 now r2 h1 h2 hex
    have hstr : ("Row " ++ toString 1 ++ ": " ++
        "Email already exists." : String) =
        "Row 1: Email already exists." := by decide
    simp [bulkCreateCustomers, bulkGo, bulkRow, hok, herr, hstr]
  · intro idx sCheck sWrite now c h1 h2 h3 hph hdup
    have herr := integrityDup_error sCheck sWrite now c h1 h2 h3 hph hdup
    have hstr : (": " ++ "Email already exists." : String) =
        ": Email already exists." := by decide
    simp [bulkRow, herr]
    rw [String.append_assoc, hstr]

/-- C4 witness: concrete instances of the three parts — a committed
case-insensitive duplicate, an in-batch duplicate at row 1, and a
write-time-only duplicate converted at row index 2. -/
theorem bulk_duplicate_email_both_sources_witness :
    createCustomerMutate storeAlice emptyStore 5
        ⟨"Bob", "Alice@Example.com", none⟩ =
      .error "Email already exists." ∧
    bulkCreateCustomers emptyStore 5
        [rowAlice, ⟨"Dup", "ALICE@example.com", none⟩] =
      { store := storeAlice, customers := [custAlice],
        errors := ["Row 1: Email already exists."] } ∧
    bulkRow 2 emptyStore storeAlice 5 rowAlice =
      (storeAlice, none, some ("Row " ++ toString 2 ++
        ": Email already exists.")) :=
  ⟨bulk_duplicate_email_both_sources.1 storeAlice emptyStore 5
      ⟨"Bob", "Alice@Example.com", none⟩ (by decide) (by decide) (by decide),
    bulk_duplicate_email_both_sources.2.1 emptyStore 5 rowAlice
      ⟨"Dup", "ALICE@example.com", none⟩ storeAlice custAlice (by decide)
      (by decide) (by decide) (by decide),
    bulk_duplicate_email_both_sources.2.2 2 emptyStore storeAlice 5 rowAlice
      (by decide) (by decide) (by decide) (by decide) (by decide)⟩

/-- C8: createCustomer on an email already present under case-insensitive
comparison fails with the DuplicateKey message and leaves the store
unchanged; and a store-level uniqueness violation at the write (write-time
store differing from the pre-checked one) is caught and surfaced as the
same DuplicateKey message, not a raw store error. -/
theorem createCustomer_duplicate_email (s sCheck sWrite : Store) (now : Nat)
    (input : CustomerInput) :
    (strIsEmpty (strTrim input.name) = false →
      emailFormatOk (strTrim input.email) = true →
      emailExistsIexact s (strTrim input.email) = true →
      createCustomer s now input = .error "Email already exists." ∧
      storeAfterCreate s now input = s) ∧
    (strIsEmpty (strTrim input.name) = false →
      emailFormatOk (strTrim input.email) = true →
      emailExistsIexact sCheck (strTrim input.email) = false →
      validate_phone (normPhone input.phone) = .ok () →
      (sWrite.customers.any
        (fun x => x.email == strTrim input.email)) = true →
      createCustomerMutate sCheck sWrite now input =
        .error "Email already exists.") := by
  constructor
  · intro h1 h2 h3
    have herr := dup_email_error s s now input h1 h2 h3
    exact ⟨herr, by simp [storeAfterCreate, createCustomer, herr]⟩
  · intro h1 h2 h3 hph hdup
    exact integrityDup_error sCheck sWrite now input h1 h2 h3 hph hdup

/-- C8 witness: a case-insensitive duplicate against the committed store
fails and changes nothing, and a write-time-only exact duplicate is
relabelled to the same message. -/
theorem createCustomer_duplicate_email_witness :
    (createCustomer storeAlice 9 ⟨"Bob", "ALICE@EXAMPLE.COM", none⟩ =
        .error "Email already exists." ∧
      storeAfterCreate storeAlice 9 ⟨"Bob", "ALICE@EXAMPLE.COM", none⟩ =
        storeAlice) ∧
    createCustomerMutate emptyStore storeAlice 9 rowAlice =
      .error "Email already exists." :=
  ⟨(createCustomer_duplicate_email storeAlice emptyStore storeAlice 9
      ⟨"Bob", "ALICE@EXAMPLE.COM", none⟩).1 (by decide) (by decide)
      (by decide),
    (createCustomer_duplicate_email storeAlice emptyStore storeAlice 9
      rowAlice).2 (by decide) (by decide) (by decide) (by decide)
      (by decide)⟩

/-- Helper: the per-field customer comparison is transitive. -/
theorem customerKeyLe_trans (f : String) (a b c : Customer)
    (h1 : customerKeyLe f a b = true) (h2 : customerKeyLe f b c = true) :
    customerKeyLe f a c = true := by
  by_cases hf : (f == "name") = true <;>
    by_cases hg : (f == "email") = true <;>
    simp_all [customerKeyLe] <;> exact le_trans h1 h2

/-- Helper: the per-field customer comparison is total. -/
theorem customerKeyLe_total (f : String) (a b : Customer) :
    (customerKeyLe f a b || customerKeyLe f b a) = true := by
  by_cases hf : (f == "name") = true <;>
    by_cases hg : (f == "email") = true <;>
    simp_all [customerKeyLe] <;> exact le_total _ _

/-- Helper: the per-field product comparison is transitive. -/
theorem productKeyLe_trans (f : String) (a b c : Product)
    (h1 : productKeyLe f a b = true) (h2 : productKeyLe f b c = true) :
    productKeyLe f a c = true := by
  by_cases hf : (f == "name") = true <;>
    by_cases hg : (f == "price") = true <;>
    simp_all [productKeyLe] <;> exact le_trans h1 h2

/-- Helper: the per-field product comparison is total. -/
theorem productKeyLe_total (f : String) (a b : Product) :
    (productKeyLe f a b || productKeyLe f b a) = true := by
  by_cases hf : (f == "name") = true <;>
    by_cases hg : (f == "price") = true <;>
    simp_all [productKeyLe] <;> exact le_total _ _

/-- Helper: the per-field order comparison is transitive. -/
theorem orderKeyLe_trans (f : String) (a b c : Order)
    (h1 : orderKeyLe f a b = true) (h2 : orderKeyLe f b c = true) :
    orderKeyLe f a c = true := by
  by_cases hf : (f == "order_date") = true <;>
    simp_all [orderKeyLe] <;> exact le_trans h1 h2

/-- Helper: the per-field order comparison is total. -/
theorem orderKeyLe_total (f : String) (a b : Order) :
    (orderKeyLe f a b || orderKeyLe f b a) = true := by
  by_cases hf : (f == "order_date") = true <;>
    simp_all [orderKeyLe] <;> exact le_total _ _

/-- Helper: full behaviour of _apply_order_by on a present, non-empty
directive: a stripped field outside the allow-list gives exactly the
GraphQLError, an allow-listed one returns the queryset reordered — a
permutation of it, sorted by the stripped field, descending under the
leading marker and ascending otherwise. -/
theorem apply_order_by_spec (le : String → α → α → Bool)
    (htrans : ∀ f a b c, le f a b = true → le f b c = true →
      le f a c = true)
    (htotal : ∀ f a b, (le f a b || le f b a) = true)
    (qs : List α) (ob : String) (allowed : List String)
    (hne : strIsEmpty ob = false) :
    (stripMarker ob ∉ allowed →
      apply_order_by le qs (some ob) allowed =
        .error ("Invalid orderBy field: " ++ stripMarker ob)) ∧
    (stripMarker ob ∈ allowed →
      apply_order_by le qs (some ob) allowed =
        .ok (orderByDirective le ob qs) ∧
      (orderByDirective le ob qs).Perm qs ∧
      (strStartsWith ob "-" = true →
        (orderByDirective le ob qs).Pairwise
          (fun a b => le (stripMarker ob) b a = true)) ∧
      (strStartsWith ob "-" = false →
        (orderByDirective le ob qs).Pairwise
          (fun a b => le (stripMarker ob) a b = true))) := by
  constructor
  · intro hm
    simp [apply_order_by, hne, hm]
  · intro hm
    refine ⟨by simp [apply_order_by, hne, hm], ?_, ?_, ?_⟩
    · unfold orderByDirective
      split <;> exact List.mergeSort_perm qs _
    · intro hd
      have hsm : stripMarker ob = strDrop ob 1 := by simp [stripMarker, hd]
      rw [hsm]
      unfold orderByDirective
      simp only [hd, if_true]
      exact List.sorted_mergeSort
        (fun a b c hab hbc => htrans (strDrop ob 1) c b a hbc hab)
        (fun a b => htotal (strDrop ob 1) b a) qs
    · intro hd
      have hsm : stripMarker ob = ob := by simp [stripMarker, hd]
      rw [hsm]
      unfold orderByDirective
      simp only [hd, Bool.false_eq_true, if_false]
      exact List.sorted_mergeSort (htrans ob) (htotal ob) qs

/-- C5: on every collection query with a present non-empty sort directive,
a stripped field outside the entity's allow-list (name/email/created_at
for customers, name/price/stock for products, order_date/total_amount for
orders) makes the whole query fail with the InvalidSortField error and no
result list is produced, whatever the filter; an allow-listed field
returns the filtered collection reordered: a permutation of it, sorted by
the stripped field in the directive's direction. -/
theorem invalid_sort_field_aborts (s : Store) (ob : String)
    (fC : Option CustomerFilterInput) (fP : Option ProductFilterInput)
    (fO : Option OrderFilterInput) (hne : strIsEmpty ob = false) :
    (stripMarker ob ∉ ["name", "email", "created_at"] →
      resolve_all_customers s fC (some ob) =
        .error ("Invalid orderBy field: " ++ stripMarker ob)) ∧
    (stripMarker ob ∉ ["name", "price", "stock"] →
      resolve_all_products s fP (some ob) =
        .error ("Invalid orderBy field: " ++ stripMarker ob)) ∧
    (stripMarker ob ∉ ["order_date", "total_amount"] →
      resolve_all_orders s fO (some ob) =
        .error ("Invalid orderBy field: " ++ stripMarker ob)) ∧
    (stripMarker ob ∈ ["name", "email", "created_at"] →
      ∃ out, resolve_all_customers s fC (some ob) = .ok out ∧
        out.Perm (match fC with
          | none => s.customers
          | some f => customerFilterApply f s.customers) ∧
        (strStartsWith ob "-" = true →
          out.Pairwise (fun a b => customerKeyLe (stripMarker ob) b a = true)) ∧
        (strStartsWith ob "-" = false →
          out.Pairwise (fun a b => customerKeyLe (stripMarker ob) a b = true))) ∧
    (stripMarker ob ∈ ["name", "price", "stock"] →
      ∃ out, resolve_all_products s fP (some ob) = .ok out ∧
        out.Perm (match fP with
          | none => s.products
          | some f => productFilterApply f s.products) ∧
        (strStartsWith ob "-" = true →
          out.Pairwise (fun a b => productKeyLe (stripMarker ob) b a = true)) ∧
        (strStartsWith ob "-" = false →
          out.Pairwise (fun a b => productKeyLe (stripMarker ob) a b = true))) ∧
    (stripMarker ob ∈ ["order_date", "total_amount"] →
      ∃ out, resolve_all_orders s fO (some ob) = .ok out ∧
        out.Perm (match fO with
          | none => s.orders
          | some f => orderFilterApply s f s.orders) ∧
        (strStartsWith ob "-" = true →
          out.Pairwise (fun a b => orderKeyLe (stripMarker ob) b a = true)) ∧
        (strStartsWith ob "-" = false →
          out.Pairwise (fun a b => orderKeyLe (stripMarker ob) a b = true))) := by
  refine ⟨?_, ?_, ?_, ?_, ?_, ?_⟩
  · intro hm
    exact (apply_order_by_spec customerKeyLe customerKeyLe_trans
      customerKeyLe_total _ ob _ hne).1 hm
  · intro hm
    exact (apply_order_by_spec productKeyLe productKeyLe_trans
      productKeyLe_total _ ob _ hne).1 hm
  · intro hm
    exact (apply_order_by_spec orderKeyLe orderKeyLe_trans
      orderKeyLe_total _ ob _ hne).1 hm
  · intro hm
    obtain ⟨heq, hperm, hdesc, hasc⟩ :=
      (apply_order_by_spec customerKeyLe customerKeyLe_trans
        customerKeyLe_total
        (match fC with
          | none => s.customers
          | some f => customerFilterApply f s.customers) ob _ hne).2 hm
    exact ⟨_, heq, hperm, hdesc, hasc⟩
  · intro hm
    obtain ⟨heq, hperm, hdesc, hasc⟩ :=
      (apply_order_by_spec productKeyLe productKeyLe_trans
        productKeyLe_total
        (match fP with
          | none => s.products
          | some f => productFilterApply f s.products) ob _ hne).2 hm
    exact ⟨_, heq, hperm, hdesc, hasc⟩
  · intro hm
    obtain ⟨heq, hperm, hdesc, hasc⟩ :=
      (apply_order_by_spec orderKeyLe orderKeyLe_trans
        orderKeyLe_total
        (match fO with
          | none => s.orders
          | some f => orderFilterApply s f s.orders) ob _ hne).2 hm
    exact ⟨_, heq, hperm, hdesc, hasc⟩

/-- C5 witness: sorting products by "-secret" fails the whole query with
the InvalidSortField error, while sorting by the allow-listed "price"
succeeds with a sorted permutation of the products. -/
theorem invalid_sort_field_aborts_witness :
    resolve_all_products storeTwoProducts none (some "-secret") =
      .error "Invalid orderBy field: secret" ∧
    (∃ out, resolve_all_products storeTwoProducts none (some "price") =
        .ok out ∧
      out.Perm storeTwoProducts.products ∧
      (strStartsWith "price" "-" = false →
        out.Pairwise
          (fun a b => productKeyLe (stripMarker "price") a b = true))) := by
  constructor
  · have h := (invalid_sort_field_aborts storeTwoProducts "-secret" none
      none none (by decide)).2.1 (by decide)
    rw [h]
    decide
  · obtain ⟨out, heq, hperm, hdesc, hasc⟩ :=
      (invalid_sort_field_aborts storeTwoProducts "price" none none none
        (by decide)).2.2.2.2.1 (by decide)
    exact ⟨out, heq, hperm, hasc⟩

end CRM
